import Mathlib

/-
Shallow embedding of src/app/api/message/route.js (WhatsApp-Bot).
Strings are modelled as Lean String / List Char; the JS regex replaces in the
voice-keyword cleaning are modelled by explicit scanners that are equivalent to
the JS patterns on the strings involved (all patterns start with a literal, so
greedy matching without backtracking coincides with JS semantics here).
-/

/-- JS regex whitespace class members that matter for this code
(the source strings only ever contain plain spaces). -/
def jsSpace (c : Char) : Bool :=
  c = ' ' || c = '\t' || c = '\n' || c = '\r' || c = '\x0b' || c = '\x0c'

/-- Case-insensitive character comparison (ASCII, as used by the /i regex flag
on the source's ASCII patterns). -/
def lowEq (a b : Char) : Bool :=
  a.toLower = b.toLower

/-- Match a literal case-insensitively at the head; return the rest on success. -/
def matchLitCI : List Char → List Char → Option (List Char)
  | [], s => some s
  | _ :: _, [] => none
  | p :: ps, c :: cs => if lowEq p c then matchLitCI ps cs else none

/-- Drop a (possibly empty) run of whitespace from the head. -/
def dropSpaces : List Char → List Char
  | [] => []
  | c :: cs => if jsSpace c then dropSpaces cs else c :: cs

/-- Match the regex fragment \s+ greedily; in the source's patterns every token
after \s+ starts with a non-space character, so greedy matching is exact. -/
def spaces1 : List Char → Option (List Char)
  | [] => none
  | c :: cs => if jsSpace c then some (dropSpaces cs) else none

/-- Match the optional greedy fragment (lit\s+)? ; skipping on inner failure is
faithful because in the source's patterns the continuation can never start with
the same literal followed by non-space (no backtracking needed). -/
def optPart (lit : List Char) (s : List Char) : List Char :=
  match matchLitCI lit s with
  | some r =>
    match spaces1 r with
    | some r2 => r2
    | none => s
  | none => s

/-- The regex /send\s+(me\s+)?(a\s+)?(voice|audio)/gi at one position. -/
def matchP1 (_ : Option Char) (s : List Char) : Option (List Char) :=
  match matchLitCI "send".toList s with
  | none => none
  | some r1 =>
    match spaces1 r1 with
    | none => none
    | some r2 =>
      let r3 := optPart "me".toList r2
      let r4 := optPart "a".toList r3
      match matchLitCI "voice".toList r4 with
      | some r5 => some r5
      | none => matchLitCI "audio".toList r4

/-- The regex /(as\s+)?(voice\s+note|voice\s+message)/gi at one position
(both alternatives share the prefix voice\s+). -/
def matchP2 (_ : Option Char) (s : List Char) : Option (List Char) :=
  let r := optPart "as".toList s
  match matchLitCI "voice".toList r with
  | none => none
  | some r1 =>
    match spaces1 r1 with
    | none => none
    | some r2 =>
      match matchLitCI "note".toList r2 with
      | some r3 => some r3
      | none => matchLitCI "message".toList r2

/-- The regex word class \w = [A-Za-z0-9_]. -/
def wordChar (c : Char) : Bool :=
  ('a' ≤ c && c ≤ 'z') || ('A' ≤ c && c ≤ 'Z') || ('0' ≤ c && c ≤ '9') || c = '_'

/-- Word boundary \b before a word character: the previous character must be
absent or a non-word character. -/
def boundaryBefore (prev : Option Char) : Bool :=
  match prev with
  | some p => !(wordChar p)
  | none => true

/-- Word boundary \b after a word character: the next character must be absent
or a non-word character. -/
def boundaryAfter (rest : List Char) : Option (List Char) :=
  match rest with
  | [] => some []
  | c :: _ => if wordChar c then none else some rest

/-- The regex /\b(speak|say\s+it)\b/gi at one position (if speak matches, the
say alternative cannot, since say needs an a where speak has a p). -/
def matchP3 (prev : Option Char) (s : List Char) : Option (List Char) :=
  if boundaryBefore prev then
    match matchLitCI "speak".toList s with
    | some r => boundaryAfter r
    | none =>
      match matchLitCI "say".toList s with
      | none => none
      | some r1 =>
        match spaces1 r1 with
        | none => none
        | some r2 =>
          match matchLitCI "it".toList r2 with
          | none => none
          | some r3 => boundaryAfter r3
  else none

/-- The regex /\bvoice\b/gi at one position. -/
def matchP4 (prev : Option Char) (s : List Char) : Option (List Char) :=
  if boundaryBefore prev then
    match matchLitCI "voice".toList s with
    | none => none
    | some r => boundaryAfter r
  else none

/-- Global replace-with-empty scanner (String.replace with a /g regex and ""),
fuelled by the input length; every pattern above consumes at least one
character on success, so the fuel never runs out. After a successful match a
new match cannot begin immediately (the trailing \b patterns force a non-word
next character, and the other patterns ignore the previous character), so
carrying the pre-match previous character is faithful. -/
def replAllAux (m : Option Char → List Char → Option (List Char)) :
    Nat → Option Char → List Char → List Char
  | _, _, [] => []
  | 0, _, s => s
  | Nat.succ fuel, prev, c :: cs =>
    match m prev (c :: cs) with
    | some r => replAllAux m fuel prev r
    | none => c :: replAllAux m fuel (some c) cs

/-- One global regex replace by the empty string. -/
def replRegex (m : Option Char → List Char → Option (List Char))
    (s : List Char) : List Char :=
  replAllAux m s.length none s

/-- The replace of /\s+/g by a single space; the flag records whether we are
inside a whitespace run already emitted as one space. -/
def collapseWS : Bool → List Char → List Char
  | _, [] => []
  | inRun, c :: cs =>
    if jsSpace c then
      (if inRun then collapseWS true cs else ' ' :: collapseWS true cs)
    else c :: collapseWS false cs

/-- JS String.prototype.trim: whitespace removed from both ends. -/
def trimBoth (s : List Char) : List Char :=
  dropSpaces (dropSpaces s.reverse).reverse

/-- needle occurs at the head of hay. -/
def startsWithL : List Char → List Char → Bool
  | [], _ => true
  | _ :: _, [] => false
  | p :: ps, c :: cs => (p = c : Bool) && startsWithL ps cs

/-- JS String.prototype.includes: needle is a contiguous substring of hay. -/
def containsL : List Char → List Char → Bool
  | [], needle => startsWithL needle []
  | c :: t, needle => startsWithL needle (c :: t) || containsL t needle

/-- The voiceKeywords array of wantsVoiceResponse (route.js lines 204-216). -/
def voiceKeywords : List String :=
  ["voice note", "voice message", "send voice", "send audio", "as voice",
   "in voice", " voice ", "speak it", "say it", " audio ", "voice clip"]

/-- wantsVoiceResponse (route.js lines 202-218): lowercase the message and test
each keyword by substring inclusion. -/
def wantsVoiceResponse (message : String) : Bool :=
  let lowerMsg := message.toList.map Char.toLower
  voiceKeywords.any (fun k => containsL lowerMsg k.toList)

/-- The aggressive keyword strip (route.js lines 272-278): the four regex
replaces, whitespace collapse, trim. -/
def aggressiveClean (msg : String) : String :=
  let s1 := replRegex matchP1 msg.toList
  let s2 := replRegex matchP2 s1
  let s3 := replRegex matchP3 s2
  let s4 := replRegex matchP4 s3
  String.mk (trimBoth (collapseWS false s4))

/-- The looser fallback strip (route.js lines 281-283): only the first pattern,
applied to the original text, then trim. -/
def looseClean (msg : String) : String :=
  String.mk (trimBoth (replRegex matchP1 msg.toList))

/-- The cleaning step of POST (route.js lines 270-285). -/
def cleanMessageOf (userMessage : String) (sendAsVoice : Bool) : String :=
  if sendAsVoice then
    let c := aggressiveClean userMessage
    if c.length < 5 then looseClean userMessage else c
  else userMessage

/-- The Intent Classifier of the spec: the keyword detection plus the cleaning
transform exactly as POST performs them (route.js lines 266-285). -/
def classify (msg : String) : Bool × String :=
  (wantsVoiceResponse msg, cleanMessageOf msg (wantsVoiceResponse msg))

/-- The nested message object of an inbound webhook body (route.js reads
body.message.text, body.message.id, body.message.timestamp). -/
structure Message where
  text : Option String
  id : Option String
  timestamp : Option Nat
deriving DecidableEq

/-- An inbound webhook body as POST reads it. The JS field named from is
modelled as from_ (from is a Lean keyword). Absent JSON fields are none. -/
structure Body where
  from_ : Option String
  fromMe : Option Bool
  timestamp : Option Nat
  id : Option String
  message : Option Message
deriving DecidableEq

/-- The gate decision: an early return with a status tag, or proceeding with
the admitted text (route.js lines 224-262). -/
inductive Decision where
  | reject (tag : String)
  | proceed (text : String)
deriving DecidableEq

/-- The sender check of line 225: body.from must be present, truthy (nonempty)
and contain PHONE_NUMBER as a substring (String.prototype.includes). -/
def senderOk (phone : String) (f : Option String) : Bool :=
  match f with
  | none => false
  | some s => if s = "" then false else containsL s.toList phone.toList

/-- body.message?.text . -/
def textOf (b : Body) : Option String :=
  b.message.bind Message.text

/-- The resolved timestamp of line 235: body.timestamp || body.message?.timestamp,
where a zero body.timestamp is falsy and falls through to the nested one. -/
def tsOf (b : Body) : Option Nat :=
  match b.timestamp with
  | some t => if t = 0 then b.message.bind Message.timestamp else some t
  | none => b.message.bind Message.timestamp

/-- The staleness guard of line 236: messageTimestamp && messageTimestamp * 1000
< serverStartTime (a zero resolved timestamp is falsy, so never stale). -/
def tsGuard (b : Body) (epoch : Nat) : Bool :=
  match tsOf b with
  | some t => decide (t ≠ 0 ∧ t * 1000 < epoch)
  | none => false

/-- The empty-content check of line 241: !body.message?.text (absent message,
absent text, or empty text are all falsy). -/
def noText (b : Body) : Bool :=
  match textOf b with
  | some t => t == ""
  | none => true

/-- The resolved, truthy message id of line 246: body.id || body.message?.id,
normalised so that a falsy (empty) result behaves as absent, exactly as the
two id guards of lines 247 and 253 treat it. -/
def midOf (b : Body) : Option String :=
  let raw := match b.id with
    | some i => if i = "" then b.message.bind Message.id else some i
    | none => b.message.bind Message.id
  match raw with
  | some i => if i = "" then none else some i
  | none => none

/-- Lines 253-260: Set.add of the id (a JS Set never duplicates, and the id is
known absent when this runs), then, when the size exceeds 100, deletion of the
first-inserted id, which in insertion order is the head of the list. -/
def addProcessed (s : List String) (i : String) : List String :=
  let s1 := if i ∈ s then s else s ++ [i]
  if s1.length > 100 then s1.drop 1 else s1

/-- The Message Gate: the chain of early returns of POST (route.js lines
224-260), yielding the decision and the updated processedMessages state.
processedMessages is a JS Set iterated in insertion order, modelled as a
duplicate-free list in insertion order. -/
def messageGate (phone : String) (epoch : Nat) (st : List String) (b : Body) :
    Decision × List String :=
  if senderOk phone b.from_ = false then (Decision.reject "ignored", st)
  else if b.fromMe = some true then (Decision.reject "ignored_self", st)
  else if tsGuard b epoch = true then (Decision.reject "ignored_old", st)
  else if noText b = true then (Decision.reject "ignored_no_text", st)
  else
    match midOf b with
    | some i =>
      if i ∈ st then (Decision.reject "ignored_duplicate", st)
      else (Decision.proceed ((textOf b).getD ""), addProcessed st i)
    | none => (Decision.proceed ((textOf b).getD ""), st)

/-- One conversation turn as stored by saveToHistory (route.js line 33). -/
structure Turn where
  role : String
  message : String
deriving DecidableEq

/-- saveToHistory (route.js lines 32-38): push, then keep only the last 10
(Array.prototype.slice(-10)). -/
def saveToHistory (h : List Turn) (role message : String) : List Turn :=
  let h2 := h ++ [⟨role, message⟩]
  if h2.length > 10 then h2.drop (h2.length - 10) else h2

/-- loadHistory (route.js lines 40-42). -/
def loadHistory (h : List Turn) : List Turn :=
  h

/-- The process-wide mutable state of the module (route.js lines 27-28). -/
structure ServerState where
  conversationHistory : List Turn
  processedMessages : List String
deriving DecidableEq

/-- Outcomes of the external collaborators for one request.
generateLLMResponse and textToSpeech catch internally and never throw, so they
are total (textToSpeech returns none on failure); sendVoiceNote rethrows on
failure and fetch in sendWhatsAppMessage rejects on network failure, so both
are Except values. -/
structure Collab where
  llm : List Turn → String → String
  tts : String → Option String
  voiceResult : String → String → Except String Unit
  textResult : String → String → Except String Unit

/-- The webhook response: the status tag of the JSON body and the HTTP status
code (NextResponse.json always receives status 200 in this handler). -/
structure HttpResponse where
  status : String
  httpStatus : Nat
deriving DecidableEq

/-- The POST handler (route.js lines 220-323). The parsed argument is the
result of await request.json(): an Except error covers a malformed payload
(the outer catch turns any throw into a 200 error response). Delivery throws
likewise land in the outer catch, after the history was already mutated. -/
def POST (phone : String) (epoch : Nat) (c : Collab)
    (st : ServerState) (parsed : Except String Body) : HttpResponse × ServerState :=
  match parsed with
  | Except.error _ => (⟨"error", 200⟩, st)
  | Except.ok body =>
    match messageGate phone epoch st.processedMessages body with
    | (Decision.reject tag, st1) => (⟨tag, 200⟩, ⟨st.conversationHistory, st1⟩)
    | (Decision.proceed userMessage, st1) =>
      let sendAsVoice := wantsVoiceResponse userMessage
      let cleanMessage := cleanMessageOf userMessage sendAsVoice
      let h1 := saveToHistory st.conversationHistory "user" cleanMessage
      let reply := c.llm (loadHistory h1) cleanMessage
      let h2 := saveToHistory h1 "model" reply
      let st2 : ServerState := ⟨h2, st1⟩
      if sendAsVoice then
        match c.tts reply with
        | some audioPath =>
          match c.voiceResult audioPath (phone ++ "@s.whatsapp.net") with
          | Except.ok _ => (⟨"success", 200⟩, st2)
          | Except.error _ => (⟨"error", 200⟩, st2)
        | none =>
          match c.textResult reply (phone ++ "@s.whatsapp.net") with
          | Except.ok _ => (⟨"success", 200⟩, st2)
          | Except.error _ => (⟨"error", 200⟩, st2)
      else
        match c.textResult reply (phone ++ "@s.whatsapp.net") with
        | Except.ok _ => (⟨"success", 200⟩, st2)
        | Except.error _ => (⟨"error", 200⟩, st2)

/-- Concrete inbound body whose sender is unequal to the target but contains it
as a substring. -/
def bodyC1 : Body :=
  ⟨some "9123", some false, none, none, some ⟨some "hello", some "mid", none⟩⟩

/-- Concrete inbound body carrying the timestamp 0, which line 236 treats as
falsy and therefore never as stale. -/
def bodyC2 : Body :=
  ⟨some "123", some false, some 0, none, some ⟨some "hi", none, none⟩⟩

/-- Concrete inbound body with a fresh-looking nonzero stale timestamp. -/
def bodyC2w : Body :=
  ⟨some "123", some false, some 7, none, some ⟨some "hi", none, none⟩⟩

/-- A valid inbound body carrying the numbered message id. -/
def gateBody (i : Nat) : Body :=
  ⟨some "1234567890", some false, none, some (Nat.repr i),
   some ⟨some "hello", none, none⟩⟩

/-- The processedMessages state after admitting 105 events with distinct ids
0..104, starting from the empty set. -/
def runGate105 : List String :=
  ((List.range 105).map gateBody).foldl
    (fun s b => (messageGate "1234567890" 0 s b).2) []

/-- A valid inbound body carrying the message id m1. -/
def bodyC5 : Body :=
  ⟨some "123", some false, none, some "m1", some ⟨some "hello", none, none⟩⟩

/-- The conversation history after appending 15 user turns 0..14 to the empty
window. -/
def runHistory15 : List Turn :=
  (List.range 15).foldl (fun h n => saveToHistory h "user" (Nat.repr n)) []

/-- A valid inbound body with no message id anywhere. -/
def bodyC10 : Body :=
  ⟨some "123", some false, none, none, some ⟨some "hi", none, none⟩⟩

/-- Collaborators for which speech synthesis succeeds but the voice-note send
throws (as axios does on any gateway failure), while the text channel works. -/
def collabC3 : Collab :=
  ⟨fun _ _ => "gravity is the curvature of spacetime", fun _ => some "voice_1.wav",
   fun _ _ => Except.error "connect ECONNREFUSED", fun _ _ => Except.ok ()⟩

/-- A voice-requesting inbound body from the target sender. -/
def bodyC3 : Body :=
  ⟨some "1234567890", some false, some 999999999, some "m9",
   some ⟨some "send me a voice note explaining gravity", none, none⟩⟩

/-- Collaborators for which every delivery call throws. -/
def collabAllFail : Collab :=
  ⟨fun _ _ => "some reply", fun _ => some "voice_2.wav",
   fun _ _ => Except.error "boom", fun _ _ => Except.error "boom"⟩

/-- A valid text-only inbound body carrying the message id m2. -/
def bodyC3w : Body :=
  ⟨some "123", some false, none, some "m2", some ⟨some "hello", none, none⟩⟩

theorem addProcessed_le (s : List String) (i : String) (h : s.length ≤ 100) :
    (addProcessed s i).length ≤ 100 := by
  unfold addProcessed
  by_cases h1 : i ∈ s
  · simp only [h1, if_true]
    split <;> simp_all <;> omega
  · simp only [h1, if_false]
    split <;> simp_all <;> omega

theorem messageGate_len (phone : String) (epoch : Nat) (st : List String) (b : Body)
    (h : st.length ≤ 100) : ((messageGate phone epoch st b).2).length ≤ 100 := by
  unfold messageGate
  repeat' split
  all_goals first
    | exact h
    | exact addProcessed_le st _ h

theorem saveToHistory_le (h : List Turn) (r m : String) (hl : h.length ≤ 10) :
    (saveToHistory h r m).length ≤ 10 := by
  simp only [saveToHistory]
  split <;> simp_all <;> omega

theorem mem_addProcessed (s : List String) (i : String) (h : i ∉ s) :
    i ∈ addProcessed s i := by
  unfold addProcessed
  simp only [h, if_false]
  split
  · next hgt =>
    cases s with
    | nil => simp at hgt
    | cons a tl => simp
  · simp

theorem gateRejectTag (phone : String) (epoch : Nat) (st : List String) (b : Body)
    (tag : String) (s2 : List String)
    (h : messageGate phone epoch st b = (Decision.reject tag, s2)) :
    tag = "ignored" ∨ tag = "ignored_self" ∨ tag = "ignored_old" ∨
      tag = "ignored_no_text" ∨ tag = "ignored_duplicate" := by
  unfold messageGate at h
  repeat' split at h
  all_goals simp_all

/-- Claim C1, counterexample: the sender 9123 is not equal to the configured
target 123, yet the gate does not reject the event with status ignored,
because line 225 tests substring containment (String.includes), not equality. -/
theorem c1_counterexample :
    bodyC1.from_ = some "9123" ∧ (some "9123" : Option String) ≠ some "123" ∧
    (messageGate "123" 0 [] bodyC1).1 ≠ Decision.reject "ignored" := by
  decide

/-- Claim C1, amended: for every inbound event whose sender identifier is
absent, empty, or does not contain the configured target identifier as a
substring (senderOk false), the gate rejects with status ignored, regardless
of the event's other fields, leaving the state unchanged. -/
theorem c1_sender_substring (phone : String) (epoch : Nat) (st : List String)
    (b : Body) (h : senderOk phone b.from_ = false) :
    messageGate phone epoch st b = (Decision.reject "ignored", st) := by
  unfold messageGate
  simp [h]

/-- Witness for c1_sender_substring at a concrete sender 456 and target 123. -/
theorem c1_sender_substring_witness :
    senderOk "123" (some "456") = false ∧
    messageGate "123" 0 ["x"] ⟨some "456", none, none, none, none⟩
      = (Decision.reject "ignored", ["x"]) :=
  ⟨by decide, c1_sender_substring "123" 0 ["x"] ⟨some "456", none, none, none, none⟩ (by decide)⟩

/-- Claim C2, counterexample: the event passes the sender and self-echo checks
and carries the timestamp 0, which is strictly before the server epoch 1000,
yet the gate proceeds instead of rejecting with ignored_old: line 236 tests
messageTimestamp with JS truthiness, so a zero timestamp is treated as absent. -/
theorem c2_counterexample :
    bodyC2.timestamp = some 0 ∧ 0 * 1000 < 1000 ∧
    senderOk "123" bodyC2.from_ = true ∧ bodyC2.fromMe ≠ some true ∧
    (messageGate "123" 1000 [] bodyC2).1 = Decision.proceed "hi" := by
  decide

/-- Claim C2, amended: for every event that passes the sender and self-echo
checks and whose resolved timestamp (body.timestamp if nonzero, else the
nested message timestamp) is present, nonzero, and strictly before the server
epoch after scaling seconds to milliseconds, the gate rejects with
ignored_old. -/
theorem c2_stale_reject (phone : String) (epoch : Nat) (st : List String) (b : Body)
    (t : Nat) (hS : senderOk phone b.from_ = true) (hM : b.fromMe ≠ some true)
    (h3 : tsOf b = some t) (h4 : t ≠ 0) (h5 : t * 1000 < epoch) :
    messageGate phone epoch st b = (Decision.reject "ignored_old", st) := by
  have hT : tsGuard b epoch = true := by
    unfold tsGuard
    rw [h3]
    simp [h4, h5]
  unfold messageGate
  simp [hS, hM, hT]

/-- Witness for c2_stale_reject at the concrete timestamp 7 and epoch 999999. -/
theorem c2_stale_reject_witness :
    senderOk "123" bodyC2w.from_ = true ∧ bodyC2w.fromMe ≠ some true ∧
    tsOf bodyC2w = some 7 ∧ (7 : Nat) ≠ 0 ∧ 7 * 1000 < 999999 ∧
    messageGate "123" 999999 [] bodyC2w = (Decision.reject "ignored_old", []) :=
  ⟨by decide, by decide, by decide, by decide, by decide,
   c2_stale_reject "123" 999999 [] bodyC2w 7 (by decide) (by decide) (by decide)
     (by decide) (by decide)⟩

/-- Claim C3, counterexample: an admitted voice-requesting event whose
voice-note delivery call throws yields the response status error, not success:
sendVoiceNote rethrows (line 197) and the outer catch of POST (lines 316-322)
maps the throw to the error tag. -/
theorem c3_counterexample :
    (messageGate "1234567890" 5 ([] : List String) bodyC3).1
      = Decision.proceed "send me a voice note explaining gravity" ∧
    collabC3.voiceResult "voice_1.wav" "1234567890@s.whatsapp.net"
      = Except.error "connect ECONNREFUSED" ∧
    (POST "1234567890" 5 collabC3 ⟨[], []⟩ (Except.ok bodyC3)).1.status = "error" ∧
    (POST "1234567890" 5 collabC3 ⟨[], []⟩ (Except.ok bodyC3)).1.status ≠ "success" := by
  refine ⟨by decide, rfl, by decide, by decide⟩

/-- Claim C3, amended: for every admitted event, when the delivery call to the
chat gateway (text send or voice-note send) throws, the webhook response is
still HTTP 200, with status tag error rather than success; the failure never
propagates to the webhook caller as an exception or non-200 response. -/
theorem c3_delivery_failure_ack (phone : String) (epoch : Nat) (c : Collab)
    (st : ServerState) (b : Body) (t : String) (ps : List String)
    (hA : messageGate phone epoch st.processedMessages b = (Decision.proceed t, ps))
    (hV : ∀ a p, ∃ e, c.voiceResult a p = Except.error e)
    (hT : ∀ m p, ∃ e, c.textResult m p = Except.error e) :
    (POST phone epoch c st (Except.ok b)).1 = ⟨"error", 200⟩ := by
  unfold POST
  dsimp only
  rw [hA]
  dsimp only
  split
  · split
    · next audioPath heq =>
      obtain ⟨e, he⟩ := hV audioPath (phone ++ "@s.whatsapp.net")
      rw [he]
    · obtain ⟨e, he⟩ := hT (c.llm (loadHistory (saveToHistory st.conversationHistory "user"
        (cleanMessageOf t (wantsVoiceResponse t)))) (cleanMessageOf t (wantsVoiceResponse t)))
        (phone ++ "@s.whatsapp.net")
      rw [he]
  · obtain ⟨e, he⟩ := hT (c.llm (loadHistory (saveToHistory st.conversationHistory "user"
      (cleanMessageOf t (wantsVoiceResponse t)))) (cleanMessageOf t (wantsVoiceResponse t)))
      (phone ++ "@s.whatsapp.net")
    rw [he]

/-- Witness for c3_delivery_failure_ack at a concrete admitted event with both
delivery channels throwing. -/
theorem c3_delivery_failure_ack_witness :
    messageGate "123" 0 ([] : List String) bodyC3w = (Decision.proceed "hello", ["m2"]) ∧
    (POST "123" 0 collabAllFail ⟨[], []⟩ (Except.ok bodyC3w)).1 = ⟨"error", 200⟩ :=
  ⟨by decide,
   c3_delivery_failure_ack "123" 0 collabAllFail ⟨[], []⟩ bodyC3w "hello" ["m2"]
     (by decide) (fun a p => ⟨"boom", rfl⟩) (fun m p => ⟨"boom", rfl⟩)⟩

set_option maxRecDepth 100000

/-- Claim C4: processedMessages never holds more than 100 ids after any gate
call, and eviction is FIFO by insertion order: after admitting 105 events with
distinct ids 0..104 the state is exactly the ids 5..104 in insertion order,
so the earliest 5 are absent. -/
theorem c4_seen_ids_bound :
    (∀ (phone : String) (epoch : Nat) (st : List String) (b : Body),
        st.length ≤ 100 → ((messageGate phone epoch st b).2).length ≤ 100) ∧
    runGate105 = ((List.range 105).drop 5).map Nat.repr := by
  constructor
  · exact fun phone epoch st b h => messageGate_len phone epoch st b h
  · decide

/-- Witness for the bounded-size conjunct of c4_seen_ids_bound at the empty
state. -/
theorem c4_seen_ids_bound_witness :
    ([] : List String).length ≤ 100 ∧
    ((messageGate "1234567890" 0 [] (gateBody 0)).2).length ≤ 100 :=
  ⟨by decide, c4_seen_ids_bound.1 "1234567890" 0 [] (gateBody 0) (by decide)⟩

/-- Claim C5: calling the gate twice with the same message id present, the
first call yielding Proceed, makes the second call on the resulting state
reject with ignored_duplicate (admission mutates processedMessages and is not
idempotent). -/
theorem c5_duplicate_second_call (phone : String) (epoch : Nat) (st : List String)
    (b : Body) (t i : String)
    (h1 : (messageGate phone epoch st b).1 = Decision.proceed t)
    (h2 : midOf b = some i) :
    (messageGate phone epoch (messageGate phone epoch st b).2 b).1
      = Decision.reject "ignored_duplicate" := by
  by_cases hS : senderOk phone b.from_ = false
  · unfold messageGate at h1
    simp [hS] at h1
  by_cases hM : b.fromMe = some true
  · unfold messageGate at h1
    simp [hS, hM] at h1
  by_cases hT : tsGuard b epoch = true
  · unfold messageGate at h1
    simp [hS, hM, hT] at h1
  by_cases hN : noText b = true
  · unfold messageGate at h1
    simp [hS, hM, hT, hN] at h1
  by_cases hI : i ∈ st
  · unfold messageGate at h1
    simp [hS, hM, hT, hN, h2, hI] at h1
  have hstate : (messageGate phone epoch st b).2 = addProcessed st i := by
    unfold messageGate
    simp [hS, hM, hT, hN, h2, hI]
  rw [hstate]
  unfold messageGate
  simp [hS, hM, hT, hN, h2, mem_addProcessed st i hI]

/-- Witness for c5_duplicate_second_call at a concrete valid event with id m1
admitted from the empty state. -/
theorem c5_duplicate_second_call_witness :
    (messageGate "123" 0 [] bodyC5).1 = Decision.proceed "hello" ∧
    midOf bodyC5 = some "m1" ∧
    (messageGate "123" 0 (messageGate "123" 0 [] bodyC5).2 bodyC5).1
      = Decision.reject "ignored_duplicate" :=
  ⟨by decide, by decide,
   c5_duplicate_second_call "123" 0 [] bodyC5 "hello" "m1" (by decide) (by decide)⟩

/-- Claim C6: the conversation window never holds more than 10 turns after any
saveToHistory call, oldest evicted first: after appending 15 turns 0..14
sequentially, loadHistory returns exactly the turns 5..14 in chronological
order, oldest first. -/
theorem c6_window_bound :
    (∀ (h : List Turn) (role msg : String),
        h.length ≤ 10 → (saveToHistory h role msg).length ≤ 10) ∧
    loadHistory runHistory15
      = ((List.range 15).drop 5).map (fun n => ⟨"user", Nat.repr n⟩) := by
  constructor
  · exact fun h role msg hl => saveToHistory_le h role msg hl
  · decide

/-- Witness for the bounded-length conjunct of c6_window_bound at the empty
window. -/
theorem c6_window_bound_witness :
    ([] : List Turn).length ≤ 10 ∧
    (saveToHistory [] "user" "hello").length ≤ 10 :=
  ⟨by decide, c6_window_bound.1 [] "user" "hello" (by decide)⟩

/-- Claim C7: classify of the request send me a voice note explaining gravity
yields wantsVoice true, and the cleaned text contains the substring
explaining gravity but neither voice nor send. -/
theorem c7_classify_gravity :
    (classify "send me a voice note explaining gravity").1 = true ∧
    containsL (classify "send me a voice note explaining gravity").2.toList
      "explaining gravity".toList = true ∧
    containsL (classify "send me a voice note explaining gravity").2.toList
      "voice".toList = false ∧
    containsL (classify "send me a voice note explaining gravity").2.toList
      "send".toList = false := by
  decide

/-- Claim C8: for classify of send voice hi, the aggressive strip yields fewer
than 5 characters, so the classifier falls back to the looser strip (only the
first pattern) applied to the original text, and the cleaned text preserves
hi. -/
theorem c8_classify_short_guard :
    (aggressiveClean "send voice hi").length < 5 ∧
    (classify "send voice hi").1 = true ∧
    (classify "send voice hi").2 = looseClean "send voice hi" ∧
    containsL (classify "send voice hi").2.toList "hi".toList = true := by
  decide

/-- Claim C9: for every inbound request, including malformed payloads and every
internal failure class of the collaborators, POST returns HTTP status 200 with
a status tag among ignored, ignored_self, ignored_old, ignored_no_text,
ignored_duplicate, success, error; no exception propagates to the caller. -/
theorem c9_always_200 (phone : String) (epoch : Nat) (c : Collab)
    (st : ServerState) (parsed : Except String Body) :
    (POST phone epoch c st parsed).1.httpStatus = 200 ∧
    (POST phone epoch c st parsed).1.status ∈
      ["ignored", "ignored_self", "ignored_old", "ignored_no_text",
       "ignored_duplicate", "success", "error"] := by
  unfold POST
  match parsed with
  | Except.error e => simp
  | Except.ok b =>
    dsimp only
    rcases h : messageGate phone epoch st.processedMessages b with ⟨d, ps⟩
    cases d with
    | reject tag =>
      have := gateRejectTag phone epoch st.processedMessages b tag ps h
      dsimp only
      rcases this with h1 | h1 | h1 | h1 | h1 <;> simp [h1]
    | proceed t =>
      dsimp only
      repeat' split
      all_goals simp

/-- Claim C10: every event that passes the sender, self-echo, staleness and
text checks but carries no truthy message identifier is admitted with Proceed
for every processedMessages state, which is left unchanged; hence repeated
identical deliveries of such an event are each fully processed (duplicate
suppression is bypassed when the id is absent). -/
theorem c10_no_id_bypass (phone : String) (epoch : Nat) (b : Body) (txt : String)
    (hS : senderOk phone b.from_ = true) (hM : b.fromMe ≠ some true)
    (hT : tsGuard b epoch = false) (htxt : textOf b = some txt) (hne : txt ≠ "")
    (hid : midOf b = none) :
    ∀ st : List String, messageGate phone epoch st b = (Decision.proceed txt, st) := by
  intro st
  have hN : noText b = false := by
    unfold noText
    rw [htxt]
    simp [hne]
  unfold messageGate
  simp [hS, hM, hT, hN, hid, htxt]

/-- Witness for c10_no_id_bypass at a concrete id-less event, applied to two
different states. -/
theorem c10_no_id_bypass_witness :
    senderOk "123" bodyC10.from_ = true ∧ textOf bodyC10 = some "hi" ∧
    midOf bodyC10 = none ∧
    messageGate "123" 0 ["a"] bodyC10 = (Decision.proceed "hi", ["a"]) ∧
    messageGate "123" 0 [] bodyC10 = (Decision.proceed "hi", []) :=
  ⟨by decide, by decide, by decide,
   c10_no_id_bypass "123" 0 bodyC10 "hi" (by decide) (by decide) (by decide)
     (by decide) (by decide) (by decide) ["a"],
   c10_no_id_bypass "123" 0 bodyC10 "hi" (by decide) (by decide) (by decide)
     (by decide) (by decide) (by decide) []⟩
